import Mathlib

/-!
A shallow embedding of `src/vigilante_claro.py` (a single-file document
monitor) together with proofs about its behaviour.

Modelling conventions:
* Python `dict` records are modelled by structures whose fields are
  `Option String`: `none` means the key is absent, `some v` means the key
  is present with string value `v`.
* A Python function that can raise is modelled as returning
  `Except String α`; the error string names the Python exception.
* Wall-clock time is passed explicitly: `Hoy` carries the current year and
  month (the only components `datetime.now()` is consulted for).
* External library calls are inputs: the result of `requests.get(URL).text`
  followed by BeautifulSoup's script extraction is a
  `Except String (List String)` (the textual contents of the page's script
  elements, or a transport error), and `ast.literal_eval` is a parameter
  `parse : String → Except String RawDict`.
-/

/-- Current wall-clock year and month (`datetime.now()`), passed explicitly. -/
structure Hoy where
  year : Nat
  month : Nat
deriving DecidableEq

/-- ASCII lower-casing of one character (`str.lower`, ASCII portion). -/
def lowerChar (c : Char) : Char :=
  if c.toNat ≥ 65 && c.toNat ≤ 90 then Char.ofNat (c.toNat + 32) else c

/-- Whitespace as recognised by `str.strip` and the regex class `\s`
(ASCII portion). -/
def esSpaceChar (c : Char) : Bool :=
  c == ' ' || c == '\t' || c == '\n' || c == '\r' || c == '\x0b' || c == '\x0c'

/-- Python `str.lower()`. -/
def pyLower (s : String) : String :=
  String.mk (s.data.map lowerChar)

/-- Python `str.strip()`: drop leading and trailing whitespace. -/
def pyStrip (s : String) : String :=
  String.mk (((s.data.dropWhile esSpaceChar).reverse.dropWhile esSpaceChar).reverse)

/-- Python `str.startswith(pre)`. -/
def pyStartsWith (s pre : String) : Bool :=
  List.isPrefixOf pre.data s.data

/-- Split a character list at every dash (`str.split`-style, used to model
the two literal dashes of the format `%d-%m-%Y`). -/
def splitDash (acc : List Char) : List Char → List (List Char)
  | [] => [acc.reverse]
  | '-' :: rest => acc.reverse :: splitDash [] rest
  | c :: rest => splitDash (c :: acc) rest

/-- Numeric value of a digit string (used after an all-digits check). -/
def digitsToNat (cs : List Char) : Nat :=
  cs.foldl (fun n c => n * 10 + (c.toNat - 48)) 0

/-- Gregorian leap-year test, as `datetime` implements it. -/
def esBisiesto (y : Nat) : Bool :=
  y % 4 == 0 && (y % 100 != 0 || y % 400 == 0)

/-- Number of days of month `m` in year `y` (0 for an invalid month). -/
def diasEnMes (m y : Nat) : Nat :=
  if m == 1 || m == 3 || m == 5 || m == 7 || m == 8 || m == 10 || m == 12 then 31
  else if m == 4 || m == 6 || m == 9 || m == 11 then 30
  else if m == 2 then (if esBisiesto y then 29 else 28)
  else 0

/-- Model of `datetime.strptime(s, "%d-%m-%Y")`: `some (d, m, y)` on success,
`none` when the call raises `ValueError`.  The format demands a 1-2 digit
day, a dash, a 1-2 digit month, a dash and a 4 digit year, consuming the
whole string, and the triple must be a real calendar date with year ≥ 1. -/
def parseFecha (s : String) : Option (Nat × Nat × Nat) :=
  match splitDash [] s.data with
  | [ds, ms, ys] =>
    if ds.all Char.isDigit && (1 ≤ ds.length && ds.length ≤ 2) &&
       ms.all Char.isDigit && (1 ≤ ms.length && ms.length ≤ 2) &&
       ys.all Char.isDigit && ys.length == 4 then
      let d := digitsToNat ds
      let m := digitsToNat ms
      let y := digitsToNat ys
      if 1 ≤ d && 1 ≤ m && m ≤ 12 && d ≤ diasEnMes m y && 1 ≤ y then
        some (d, m, y)
      else none
    else none
  | _ => none

/-- `es_mes_actual(fecha_dd_mm_yyyy)`: true when the date parses as
`dd-mm-yyyy` and lies in the current month and year; parse failure
(`ValueError`) is caught locally and yields `false`. -/
def es_mes_actual (hoy : Hoy) (fecha_dd_mm_yyyy : String) : Bool :=
  match parseFecha fecha_dd_mm_yyyy with
  | some (_, m, y) => y == hoy.year && m == hoy.month
  | none => false

/-- A document record as built by the extractor / read from the state file.
Each field is `none` when the corresponding key is absent from the dict. -/
structure Doc where
  id : Option String
  titulo : Option String
  publicado : Option String
  vigencia : Option String
  url : Option String
deriving DecidableEq

/-- Python `d[k]` subscript access: `KeyError` when the key is absent. -/
def getItem (field : Option String) (key : String) : Except String String :=
  match field with
  | some v => Except.ok v
  | none => Except.error ("KeyError: " ++ key)

/-- `es_valido(doc)`: `doc.get("vigencia", "")` lower-cased and stripped must
start with `"vigente"`, and (short-circuit `and`) `doc["publicado"]` — a
`KeyError` if the key is absent — must be in the current month. -/
def es_valido (hoy : Hoy) (doc : Doc) : Except String Bool :=
  let vig := pyStrip (pyLower (doc.vigencia.getD ""))
  if pyStartsWith vig "vigente" then
    match getItem doc.publicado "publicado" with
    | Except.error e => Except.error e
    | Except.ok f => Except.ok (es_mes_actual hoy f)
  else
    Except.ok false

/-- The status check of `es_valido` in isolation. -/
def vigenteOk (doc : Doc) : Bool :=
  pyStartsWith (pyStrip (pyLower (doc.vigencia.getD ""))) "vigente"

/-- Total boolean version of the validity predicate, meaningful for docs
whose `publicado` key is present whenever the status check passes. -/
def es_validoB (hoy : Hoy) (doc : Doc) : Bool :=
  vigenteOk doc && es_mes_actual hoy (doc.publicado.getD "")

theorem es_valido_of_publicado_some (hoy : Hoy) (doc : Doc) (f : String)
    (hf : doc.publicado = some f) :
    es_valido hoy doc = Except.ok (es_validoB hoy doc) := by
  unfold es_valido es_validoB vigenteOk getItem
  rw [hf]
  by_cases h : (pyStartsWith (pyStrip (pyLower (doc.vigencia.getD ""))) "vigente") = true
  · simp only [h, if_true]
    rfl
  · simp [h]

theorem es_valido_of_not_vigente (hoy : Hoy) (doc : Doc)
    (h : vigenteOk doc = false) :
    es_valido hoy doc = Except.ok false := by
  unfold es_valido
  unfold vigenteOk at h
  simp [h]

/-- Occurrence of `pat` as a contiguous substring (Python's `in`). -/
def contieneSub (pat : List Char) : List Char → Bool
  | [] => pat.isEmpty
  | cs@(_ :: tl) => List.isPrefixOf pat cs || contieneSub pat tl

/-- The test of `soup.find_all("script", string=lambda t: t and "catalogoArr[" in t)`:
a non-empty script text containing the marker substring (an empty text is
falsy and never contains the non-empty marker, so one check suffices). -/
def tieneMarcador (t : String) : Bool :=
  contieneSub "catalogoArr[".data t.data

/-- The raw mapping produced by `ast.literal_eval` on one object literal;
`none` marks an absent key. -/
structure RawDict where
  fi_documento : Option String
  fc_titulo : Option String
  fd_fecha_publicacion : Option String
  fc_vigencia_descripcion : Option String
  fc_url_documento : Option String
deriving DecidableEq

/-- Record construction of `obtener_documentos` (lines 67-75): five `get`
look-ups, the url prefixed with the fixed base domain. -/
def buildRecord (d_js : RawDict) : Doc :=
  { id := d_js.fi_documento
    titulo := d_js.fc_titulo
    publicado := d_js.fd_fecha_publicacion
    vigencia := d_js.fc_vigencia_descripcion
    url := some ("https://www.claro.com.ec" ++ d_js.fc_url_documento.getD "") }

/-- Word character of the regex class `\w` (ASCII portion). -/
def esWordChar (c : Char) : Bool :=
  c.isAlphanum || c == '_'

/-- After the opening `{`, the lazy `.*?};` of the pattern: capture up to and
including the first `}` that is immediately followed by `;`. -/
def capturaBloque (acc : List Char) : List Char → Option (List Char × List Char)
  | '}' :: ';' :: rest => some (acc ++ ['}'], rest)
  | c :: rest => capturaBloque (acc ++ [c]) rest
  | [] => none

/-- Attempt to match `catalogoArr\[\w+\]\s*=\s*({.*?});` at the head of `cs`;
on success return the captured `{...}` and the characters after the match. -/
def matchCatalogo (cs : List Char) : Option (List Char × List Char) :=
  match List.isPrefixOf "catalogoArr[".data cs with
  | false => none
  | true =>
    let rest0 := cs.drop "catalogoArr[".data.length
    let w := rest0.takeWhile esWordChar
    if w.isEmpty then none
    else
      match rest0.drop w.length with
      | ']' :: rest1 =>
        match (rest1.dropWhile esSpaceChar) with
        | '=' :: rest2 =>
          match (rest2.dropWhile esSpaceChar) with
          | '{' :: rest3 => capturaBloque ['{'] rest3
          | _ => none
        | _ => none
      | _ => none

/-- `patron.findall(scr.string)`: scan left to right, emitting each captured
block and resuming after it; fuel is the string length (each step consumes
at least one character). -/
def findCatalogoAux (fuel : Nat) (cs : List Char) : List String :=
  match fuel, cs with
  | 0, _ => []
  | _, [] => []
  | fuel + 1, _ :: tl =>
    match matchCatalogo cs with
    | some (bloque, resto) => String.mk bloque :: findCatalogoAux fuel resto
    | none => findCatalogoAux fuel tl

def findCatalogo (s : String) : List String :=
  findCatalogoAux s.data.length s.data

/-- `re.sub(r",\s*}", "}", bloque)`: each comma followed by whitespace and a
closing brace collapses to the brace alone. -/
def quitaComaColganteAux (fuel : Nat) (cs : List Char) : List Char :=
  match fuel, cs with
  | 0, rest => rest
  | _, [] => []
  | fuel + 1, ',' :: rest =>
    match rest.dropWhile esSpaceChar with
    | '}' :: rest2 => '}' :: quitaComaColganteAux fuel rest2
    | _ => ',' :: quitaComaColganteAux fuel rest
  | fuel + 1, c :: rest => c :: quitaComaColganteAux fuel rest

def quitaComaColgante (s : String) : String :=
  String.mk (quitaComaColganteAux s.data.length s.data)

/-- The inner loop of `obtener_documentos`: for every captured block, clean
it, `ast.literal_eval` it (the `parse` parameter; a raised
`ValueError`/`SyntaxError` propagates) and append the built record. -/
def procesaBloques (parse : String → Except String RawDict)
    (acc : List Doc) : List String → Except String (List Doc)
  | [] => Except.ok acc
  | bloque :: resto =>
    match parse (quitaComaColgante bloque) with
    | Except.error e => Except.error e
    | Except.ok d_js => procesaBloques parse (acc ++ [buildRecord d_js]) resto

/-- The outer loop of `obtener_documentos`: the records accumulated across
all matching scripts. -/
def procesaScripts (parse : String → Except String RawDict)
    (acc : List Doc) : List String → Except String (List Doc)
  | [] => Except.ok acc
  | scr :: resto =>
    match procesaBloques parse acc (findCatalogo scr) with
    | Except.error e => Except.error e
    | Except.ok acc2 => procesaScripts parse acc2 resto

/-- `obtener_documentos()`: fetch the page (a transport error propagates),
keep the scripts containing the marker, fail fast when none does, then
parse every captured object literal into a record. -/
def obtener_documentos (fetched : Except String (List String))
    (parse : String → Except String RawDict) : Except String (List Doc) :=
  match fetched with
  | Except.error e => Except.error e
  | Except.ok pageScripts =>
    let scripts := pageScripts.filter tieneMarcador
    if scripts.isEmpty then
      Except.error "RuntimeError: No se encontró catalogoArr en el HTML"
    else
      procesaScripts parse [] scripts

/-- Contents of the state file: a decodable JSON list of records, or bytes
on which `json.loads` raises `JSONDecodeError`. -/
inductive FileContent where
  | docs (l : List Doc)
  | malformed
deriving DecidableEq

/-- The mutable outside world the script touches: the state file (`none` =
file does not exist) and a log of the whole-file writes performed. -/
structure World where
  file : Option FileContent
  writes : List (List Doc)
deriving DecidableEq

/-- `cargar_estado()`: decode the state file if it exists, else `[]`;
malformed contents raise `JSONDecodeError`. -/
def cargar_estado (file : Option FileContent) : Except String (List Doc) :=
  match file with
  | none => Except.ok []
  | some (FileContent.docs l) => Except.ok l
  | some FileContent.malformed => Except.error "JSONDecodeError: Expecting value"

/-- The list comprehension `[d for d in lista if es_valido(d)]` of
`guardar_estado`; the first exception raised by `es_valido` propagates. -/
def filtrar_validos (hoy : Hoy) : List Doc → Except String (List Doc)
  | [] => Except.ok []
  | d :: ds =>
    match es_valido hoy d with
    | Except.error e => Except.error e
    | Except.ok b =>
      match filtrar_validos hoy ds with
      | Except.error e => Except.error e
      | Except.ok resto => Except.ok (if b then d :: resto else resto)

/-- `guardar_estado(lista)`: keep the currently-valid records and overwrite
the state file with them (one whole-file write). -/
def guardar_estado (hoy : Hoy) (lista : List Doc) (w : World) :
    Except String World :=
  match filtrar_validos hoy lista with
  | Except.error e => Except.error e
  | Except.ok actuales =>
    Except.ok { file := some (FileContent.docs actuales)
                writes := w.writes ++ [actuales] }

/-- `re.sub(r"[^\x00-\x7F]", " ", msg)`: every non-ASCII character becomes a
single space. -/
def sanitiza (msg : String) : String :=
  String.mk (msg.data.map (fun c => if c.toNat ≤ 0x7F then c else ' '))

/-- Webhook configuration: value of the `DISCORD_WEBHOOK` environment
variable (`none` when unset). -/
structure Config where
  webhook : Option String
deriving DecidableEq

/-- Console lines printed and webhook POSTs attempted by one `notify` call. -/
structure NotifyEff where
  console : List String
  posts : List (String × String)
deriving DecidableEq

/-- `notify(msg)`: print the timestamp plus the ASCII-sanitised message;
then, only if a webhook is configured, POST the original message; a
`requests.RequestException` (`postFalla = true`) is caught and printed.
`ts` is the `[%d/%m %H:%M] ` timestamp prefix, passed in explicitly. -/
def notify (cfg : Config) (ts : String) (postFalla : Bool) (msg : String) :
    Except String NotifyEff :=
  let console0 := [ts ++ sanitiza msg]
  match cfg.webhook with
  | none => Except.ok { console := console0, posts := [] }
  | some url =>
    if postFalla then
      Except.ok { console := console0 ++ ["Error Discord: RequestException"]
                  posts := [(url, msg)] }
    else
      Except.ok { console := console0, posts := [(url, msg)] }

/-- The startup set comprehension
`{d["id"] for d in cargar_estado() if es_valido(d)}`: the filter runs first
(its exception propagates), then the subscript (a possible `KeyError`).
Set insertion keeps one copy of each id. -/
def knownIds (hoy : Hoy) : List Doc → Except String (List String)
  | [] => Except.ok []
  | d :: ds =>
    match es_valido hoy d with
    | Except.error e => Except.error e
    | Except.ok false => knownIds hoy ds
    | Except.ok true =>
      match getItem d.id "id" with
      | Except.error e => Except.error e
      | Except.ok i =>
        match knownIds hoy ds with
        | Except.error e => Except.error e
        | Except.ok resto => Except.ok (if i ∈ resto then resto else i :: resto)

/-- The comprehension `[d for d in docs if d["id"] not in conocidos and
es_valido(d)]` of `main`: the subscript can raise `KeyError`; the `and`
short-circuits, so `es_valido` only runs on ids outside the known set. -/
def computeNuevos (hoy : Hoy) (conocidos : List String) :
    List Doc → Except String (List Doc)
  | [] => Except.ok []
  | d :: ds =>
    match getItem d.id "id" with
    | Except.error e => Except.error e
    | Except.ok i =>
      if i ∈ conocidos then
        computeNuevos hoy conocidos ds
      else
        match es_valido hoy d with
        | Except.error e => Except.error e
        | Except.ok b =>
          match computeNuevos hoy conocidos ds with
          | Except.error e => Except.error e
          | Except.ok resto => Except.ok (if b then d :: resto else resto)

/-- The notification loop of `main`: for each new doc, build the
`Nuevo documento` message (three subscripts, each a possible `KeyError`)
and add the doc's id to the known set.  Returns the messages emitted so
far, the updated known set, and the exception that escaped, if any. -/
def notifyLoop (conocidos : List String) (msgs : List String) :
    List Doc → (List String × List String × Option String)
  | [] => (msgs, conocidos, none)
  | d :: ds =>
    match d.titulo, d.publicado, d.url with
    | some t, some p, some u =>
      let msg := "Nuevo documento: " ++ t ++ " (" ++ p ++ ")\n" ++ u
      match d.id with
      | some i =>
        notifyLoop (if i ∈ conocidos then conocidos else i :: conocidos)
          (msgs ++ [msg]) ds
      | none => (msgs ++ [msg], conocidos, some "KeyError: id")
    | none, _, _ => (msgs, conocidos, some "KeyError: titulo")
    | some _, none, _ => (msgs, conocidos, some "KeyError: publicado")
    | some _, some _, none => (msgs, conocidos, some "KeyError: url")

/-- Result of one `main` pass that did not crash: final world, the messages
handed to `notify` in order, and the final known-id set. -/
structure MainOut where
  world : World
  msgs : List String
  conocidos : List String
deriving DecidableEq

/-- The `try` block of `main` (lines 116-127): fetch-extract, diff, notify
each new doc, then either persist the full fetched list or report no
novelty.  Returns the state reached plus the exception that escaped the
block, if any. -/
def mainTry (hoy : Hoy) (w : World) (fetched : Except String (List String))
    (parse : String → Except String RawDict) (conocidos : List String) :
    World × List String × List String × Option String :=
  match obtener_documentos fetched parse with
  | Except.error e => (w, [], conocidos, some e)
  | Except.ok docs =>
    match computeNuevos hoy conocidos docs with
    | Except.error e => (w, [], conocidos, some e)
    | Except.ok nuevos =>
      match notifyLoop conocidos [] nuevos with
      | (msgs, conocidos2, some e) => (w, msgs, conocidos2, some e)
      | (msgs, conocidos2, none) =>
        if nuevos.isEmpty then
          (w, msgs ++ ["Sin novedades en esta pasada"], conocidos2, none)
        else
          match guardar_estado hoy docs w with
          | Except.ok w2 => (w2, msgs, conocidos2, none)
          | Except.error e => (w, msgs, conocidos2, some e)

/-- `main()`: load the state and build the known-id set (both BEFORE the
`try`, so their exceptions propagate out of `main` — an `Except.error`
here models a process crash), emit the startup message, run the `try`
block, and turn any exception it raised into the general-error message. -/
def mainPass (hoy : Hoy) (w : World) (fetched : Except String (List String))
    (parse : String → Except String RawDict) : Except String MainOut :=
  match cargar_estado w.file with
  | Except.error e => Except.error e
  | Except.ok estado =>
    match knownIds hoy estado with
    | Except.error e => Except.error e
    | Except.ok conocidos =>
      let msg0 := "Monitor iniciado. Docs válidos conocidos: " ++
        toString conocidos.length
      match mainTry hoy w fetched parse conocidos with
      | (w2, msgs, conocidos2, none) =>
        Except.ok { world := w2, msgs := msg0 :: msgs, conocidos := conocidos2 }
      | (w2, msgs, conocidos2, some e) =>
        Except.ok { world := w2
                    msgs := msg0 :: msgs ++ ["⚠️ Error general: " ++ e]
                    conocidos := conocidos2 }

theorem es_valido_total (hoy : Hoy) (doc : Doc)
    (h : vigenteOk doc = true → doc.publicado.isSome) :
    es_valido hoy doc = Except.ok (es_validoB hoy doc) := by
  by_cases hv : vigenteOk doc = true
  · obtain ⟨f, hf⟩ := Option.isSome_iff_exists.mp (h hv)
    exact es_valido_of_publicado_some hoy doc f hf
  · have hv' : vigenteOk doc = false := by simpa using hv
    rw [es_valido_of_not_vigente hoy doc hv']
    simp [es_validoB, hv']

/-- C1: `es_valido` returns `True` exactly when the status, lower-cased and
stripped, starts with `"vigente"`, the `publicado` field is present and
parses as `dd-mm-yyyy`, and the parsed year and month equal the current
year and month. -/
theorem C1_es_valido_caracterizacion (hoy : Hoy) (d : Doc) :
    es_valido hoy d = Except.ok true ↔
      (vigenteOk d = true ∧ ∃ f dd mm yy, d.publicado = some f ∧
        parseFecha f = some (dd, mm, yy) ∧ yy = hoy.year ∧ mm = hoy.month) := by
  by_cases hv : vigenteOk d = true
  · cases hp : d.publicado with
    | none =>
      have hval : es_valido hoy d = Except.error "KeyError: publicado" := by
        unfold es_valido getItem
        rw [hp]
        have hv2 : (pyStartsWith (pyStrip (pyLower (d.vigencia.getD ""))) "vigente") = true := hv
        simp [hv2]
      rw [hval]
      simp [hp]
    | some f =>
      rw [es_valido_of_publicado_some hoy d f hp]
      simp only [Except.ok.injEq]
      unfold es_validoB es_mes_actual
      rw [hp]
      simp only [Option.getD_some]
      cases hpf : parseFecha f with
      | none => simp [hv, hpf, hp]
      | some t =>
        obtain ⟨dd, mm, yy⟩ := t
        simp [hv, hpf, hp, Bool.and_eq_true, beq_iff_eq]
        constructor
        · rintro ⟨h1, h2⟩
          exact ⟨dd, mm, yy, ⟨rfl, rfl, rfl⟩, h1, h2⟩
        · rintro ⟨dd2, mm2, yy2, ⟨h3, h4, h5⟩, h1, h2⟩
          exact ⟨h5.trans h1, h4.trans h2⟩
  · have hv' : vigenteOk d = false := by simpa using hv
    rw [es_valido_of_not_vigente hoy d hv']
    simp [hv']

/-- Witness for C1 at a concrete valid record. -/
theorem C1_es_valido_caracterizacion_witness :
    es_valido ⟨2025, 5⟩
      ⟨some "1", some "T", some "07-05-2025", some " Vigente ", some "u"⟩ =
      Except.ok true :=
  (C1_es_valido_caracterizacion ⟨2025, 5⟩
      ⟨some "1", some "T", some "07-05-2025", some " Vigente ", some "u"⟩).mpr
    ⟨by decide, "07-05-2025", 7, 5, 2025, rfl, by decide, rfl, rfl⟩

/-- C6: a `publicado` value that fails to parse as day-month-year makes
`es_mes_actual` return `false` silently, and `es_valido` on any record
carrying that value returns `Except.ok false` — no exception escapes. -/
theorem C6_fecha_malformada (hoy : Hoy) (s : String)
    (h : parseFecha s = none) :
    es_mes_actual hoy s = false ∧
      ∀ d : Doc, d.publicado = some s → es_valido hoy d = Except.ok false := by
  have hm : es_mes_actual hoy s = false := by
    unfold es_mes_actual
    rw [h]
  refine ⟨hm, fun d hd => ?_⟩
  rw [es_valido_of_publicado_some hoy d s hd]
  unfold es_validoB
  rw [hd]
  simp [hm]

/-- Witness for C6: an ISO-ordered date string does not parse. -/
theorem C6_fecha_malformada_witness :
    es_mes_actual ⟨2025, 5⟩ "2025-05-07" = false ∧
      es_valido ⟨2025, 5⟩
        ⟨some "1", none, some "2025-05-07", some "Vigente", none⟩ =
        Except.ok false :=
  ⟨(C6_fecha_malformada ⟨2025, 5⟩ "2025-05-07" (by decide)).1,
   (C6_fecha_malformada ⟨2025, 5⟩ "2025-05-07" (by decide)).2 _ rfl⟩

/-- C10: `es_valido` tolerates a missing `vigencia` key (empty status,
result `False`) but not a missing `publicado` key: when the status check
passes and `publicado` is absent, it raises `KeyError`. -/
theorem C10_parcialidad (hoy : Hoy) (d : Doc) :
    (d.vigencia = none → es_valido hoy d = Except.ok false) ∧
    (vigenteOk d = true → d.publicado = none →
      es_valido hoy d = Except.error "KeyError: publicado") := by
  constructor
  · intro h
    apply es_valido_of_not_vigente
    unfold vigenteOk
    rw [h]
    decide
  · intro hv hp
    unfold es_valido getItem
    rw [hp]
    have hv2 : (pyStartsWith (pyStrip (pyLower (d.vigencia.getD ""))) "vigente") = true := hv
    simp [hv2]

/-- Witness for C10: both branches at concrete records. -/
theorem C10_parcialidad_witness :
    es_valido ⟨2025, 5⟩ ⟨some "1", none, none, none, none⟩ = Except.ok false ∧
      es_valido ⟨2025, 5⟩ ⟨some "1", none, none, some "Vigente", none⟩ =
        Except.error "KeyError: publicado" :=
  ⟨(C10_parcialidad ⟨2025, 5⟩ ⟨some "1", none, none, none, none⟩).1 rfl,
   (C10_parcialidad ⟨2025, 5⟩ ⟨some "1", none, none, some "Vigente", none⟩).2
     (by decide) rfl⟩

/-- C7: when no script block contains the marker substring `"catalogoArr["`,
the extractor raises a descriptive `RuntimeError` instead of returning an
empty record list. -/
theorem C7_sin_marcador (fetched : Except String (List String))
    (scripts : List String) (parse : String → Except String RawDict)
    (hf : fetched = Except.ok scripts)
    (h : ∀ s ∈ scripts, tieneMarcador s = false) :
    obtener_documentos fetched parse =
      Except.error "RuntimeError: No se encontró catalogoArr en el HTML" := by
  subst hf
  have hnil : scripts.filter tieneMarcador = [] := by
    rw [List.filter_eq_nil_iff]
    intro a ha
    simp [h a ha]
  have hred : obtener_documentos (Except.ok scripts) parse =
      (if (scripts.filter tieneMarcador).isEmpty then
        Except.error "RuntimeError: No se encontró catalogoArr en el HTML"
      else procesaScripts parse [] (scripts.filter tieneMarcador)) := rfl
  rw [hred, hnil]
  rfl

/-- Witness for C7 at a concrete marker-free page. -/
theorem C7_sin_marcador_witness :
    (∀ s ∈ ["<html><body>nada aqui</body></html>"], tieneMarcador s = false) ∧
      obtener_documentos (Except.ok ["<html><body>nada aqui</body></html>"])
          (fun _ => Except.error "ValueError: malformed node") =
        Except.error "RuntimeError: No se encontró catalogoArr en el HTML" :=
  ⟨by decide, C7_sin_marcador _ _ _ rfl (by decide)⟩

/-- C8: the record's url field is the fixed base domain prefixed to the
extracted relative path; an absent relative-path key yields the base
domain unchanged. -/
theorem C8_url_prefijo (d : RawDict) :
    (buildRecord d).url =
      some ("https://www.claro.com.ec" ++ d.fc_url_documento.getD "") ∧
    (d.fc_url_documento = none →
      (buildRecord d).url = some "https://www.claro.com.ec") := by
  constructor
  · rfl
  · intro h
    unfold buildRecord
    rw [h]
    rfl

/-- Witness for C8 at a mapping with no relative-path key. -/
theorem C8_url_prefijo_witness :
    (buildRecord ⟨some "9", none, none, none, none⟩).url =
      some "https://www.claro.com.ec" :=
  (C8_url_prefijo ⟨some "9", none, none, none, none⟩).2 rfl

/-- C9: `notify` always returns normally; with no webhook configured no
POST is attempted; with a webhook configured the POST is attempted on the
original message and a transport failure only adds a console line. -/
theorem C9_notify_mejor_esfuerzo (cfg : Config) (ts : String)
    (postFalla : Bool) (msg : String) :
    ∃ eff, notify cfg ts postFalla msg = Except.ok eff ∧
      (cfg.webhook = none → eff.posts = []) ∧
      (∀ url, cfg.webhook = some url →
        eff.posts = [(url, msg)] ∧
        (postFalla = true →
          eff.console = [ts ++ sanitiza msg, "Error Discord: RequestException"])) := by
  cases hw : cfg.webhook with
  | none =>
    refine ⟨⟨[ts ++ sanitiza msg], []⟩, ?_, fun _ => rfl, ?_⟩
    · unfold notify
      rw [hw]
    · intro url hurl
      exact Option.noConfusion hurl
  | some url0 =>
    cases postFalla with
    | false =>
      refine ⟨⟨[ts ++ sanitiza msg], [(url0, msg)]⟩, ?_, ?_, ?_⟩
      · unfold notify
        rw [hw]
        rfl
      · intro hn
        exact Option.noConfusion hn
      · intro url hurl
        injection hurl with he
        subst he
        exact ⟨rfl, fun hpf => Bool.noConfusion hpf⟩
    | true =>
      refine ⟨⟨[ts ++ sanitiza msg, "Error Discord: RequestException"],
        [(url0, msg)]⟩, ?_, ?_, ?_⟩
      · unfold notify
        rw [hw]
        rfl
      · intro hn
        exact Option.noConfusion hn
      · intro url hurl
        injection hurl with he
        subst he
        exact ⟨rfl, fun _ => rfl⟩

/-- Witness for C9: a configured webhook whose POST fails. -/
theorem C9_notify_mejor_esfuerzo_witness :
    ∃ eff, notify ⟨some "https://hook"⟩ "[07/05 12:00] " true "hola ⚠️" =
        Except.ok eff ∧ eff.posts = [("https://hook", "hola ⚠️")] := by
  obtain ⟨eff, h1, _, h3⟩ :=
    C9_notify_mejor_esfuerzo ⟨some "https://hook"⟩ "[07/05 12:00] " true "hola ⚠️"
  exact ⟨eff, h1, (h3 "https://hook" rfl).1⟩

theorem filtrar_validos_eq (hoy : Hoy) (L : List Doc)
    (h : ∀ d ∈ L, vigenteOk d = true → d.publicado.isSome) :
    filtrar_validos hoy L = Except.ok (L.filter (es_validoB hoy)) := by
  induction L with
  | nil => rfl
  | cons d ds ih =>
    have hd : vigenteOk d = true → d.publicado.isSome :=
      h d (List.mem_cons_self d ds)
    have hds : ∀ x ∈ ds, vigenteOk x = true → x.publicado.isSome :=
      fun x hx => h x (List.mem_cons_of_mem d hx)
    simp only [filtrar_validos]
    rw [es_valido_total hoy d hd, ih hds]
    cases hb : es_validoB hoy d <;> simp [List.filter_cons, hb]

/-- C3: saving a list and loading it back yields exactly the sublist of
records that were valid at save time, in their original order. -/
theorem C3_guardar_luego_cargar (hoy : Hoy) (L : List Doc) (w : World)
    (h : ∀ d ∈ L, vigenteOk d = true → d.publicado.isSome) :
    ∃ w2, guardar_estado hoy L w = Except.ok w2 ∧
      cargar_estado w2.file = Except.ok (L.filter (es_validoB hoy)) ∧
      (L.filter (es_validoB hoy)).Sublist L := by
  refine ⟨⟨some (FileContent.docs (L.filter (es_validoB hoy))),
    w.writes ++ [L.filter (es_validoB hoy)]⟩, ?_, rfl, List.filter_sublist L⟩
  unfold guardar_estado
  rw [filtrar_validos_eq hoy L h]

/-- Witness for C3: one currently-valid record, one repealed record and one
stale-dated record; only the first survives the round trip. -/
theorem C3_guardar_luego_cargar_witness :
    ∃ w2, guardar_estado ⟨2025, 5⟩
        [⟨some "1", some "A", some "07-05-2025", some "Vigente", some "u"⟩,
         ⟨some "2", some "B", some "07-05-2025", some "Derogado", some "u"⟩,
         ⟨some "3", some "C", some "01-01-2020", some "Vigente", some "u"⟩]
        ⟨none, []⟩ = Except.ok w2 ∧
      cargar_estado w2.file = Except.ok
        [⟨some "1", some "A", some "07-05-2025", some "Vigente", some "u"⟩] := by
  obtain ⟨w2, h1, h2, _⟩ := C3_guardar_luego_cargar ⟨2025, 5⟩
    [⟨some "1", some "A", some "07-05-2025", some "Vigente", some "u"⟩,
     ⟨some "2", some "B", some "07-05-2025", some "Derogado", some "u"⟩,
     ⟨some "3", some "C", some "01-01-2020", some "Vigente", some "u"⟩]
    ⟨none, []⟩ (by decide)
  refine ⟨w2, h1, ?_⟩
  rw [h2]
  exact congrArg Except.ok (by decide)

theorem computeNuevos_eq (hoy : Hoy) (K : List String) (docs : List Doc)
    (hid : ∀ d ∈ docs, d.id.isSome)
    (hp : ∀ d ∈ docs, vigenteOk d = true → d.publicado.isSome) :
    computeNuevos hoy K docs = Except.ok (docs.filter
      (fun d => !(decide (d.id.getD "" ∈ K)) && es_validoB hoy d)) := by
  induction docs with
  | nil => rfl
  | cons d ds ih =>
    obtain ⟨i, hi⟩ := Option.isSome_iff_exists.mp
      (hid d (List.mem_cons_self d ds))
    have hrest := ih (fun x hx => hid x (List.mem_cons_of_mem d hx))
      (fun x hx => hp x (List.mem_cons_of_mem d hx))
    have hdp : vigenteOk d = true → d.publicado.isSome :=
      hp d (List.mem_cons_self d ds)
    simp only [computeNuevos, getItem, hi]
    by_cases hk : i ∈ K
    · rw [if_pos hk, hrest]
      have hcond : (!(decide (d.id.getD "" ∈ K)) && es_validoB hoy d) = false := by
        rw [hi]
        simp [hk]
      simp [List.filter_cons, hcond]
    · rw [if_neg hk, es_valido_total hoy d hdp, hrest]
      have hgd : d.id.getD "" = i := by
        rw [hi]
        rfl
      cases hb : es_validoB hoy d <;>
        simp [List.filter_cons, hb, hgd, hk]

theorem notifyLoop_ok (nuevos : List Doc) (K msgs : List String)
    (h : ∀ d ∈ nuevos,
      d.titulo.isSome ∧ d.publicado.isSome ∧ d.url.isSome ∧ d.id.isSome) :
    ∃ msgs2 K2, notifyLoop K msgs nuevos = (msgs2, K2, none) ∧
      (∀ x, x ∈ K2 ↔ x ∈ K ∨ ∃ d ∈ nuevos, d.id = some x) := by
  induction nuevos generalizing K msgs with
  | nil => exact ⟨msgs, K, rfl, fun x => by simp⟩
  | cons d ds ih =>
    obtain ⟨ht, hpu, hu, hid⟩ := h d (List.mem_cons_self d ds)
    obtain ⟨t, ht'⟩ := Option.isSome_iff_exists.mp ht
    obtain ⟨p, hp'⟩ := Option.isSome_iff_exists.mp hpu
    obtain ⟨u, hu'⟩ := Option.isSome_iff_exists.mp hu
    obtain ⟨i, hi'⟩ := Option.isSome_iff_exists.mp hid
    obtain ⟨msgs2, K2, heq, hmem⟩ :=
      ih (if i ∈ K then K else i :: K)
        (msgs ++ ["Nuevo documento: " ++ t ++ " (" ++ p ++ ")\n" ++ u])
        (fun x hx => h x (List.mem_cons_of_mem d hx))
    refine ⟨msgs2, K2, ?_, ?_⟩
    · simp only [notifyLoop, ht', hp', hu', hi']
      exact heq
    · intro x
      rw [hmem x]
      have hK' : x ∈ (if i ∈ K then K else i :: K) ↔ x ∈ K ∨ x = i := by
        by_cases hk : i ∈ K
        · rw [if_pos hk]
          constructor
          · exact Or.inl
          · rintro (hx | rfl)
            · exact hx
            · exact hk
        · rw [if_neg hk]
          simp [List.mem_cons, or_comm]
      rw [hK']
      constructor
      · rintro ((hx | rfl) | ⟨d2, hd2, hd2i⟩)
        · exact Or.inl hx
        · exact Or.inr ⟨d, List.mem_cons_self d ds, hi'⟩
        · exact Or.inr ⟨d2, List.mem_cons_of_mem d hd2, hd2i⟩
      · rintro (hx | ⟨d2, hd2, hd2i⟩)
        · exact Or.inl (Or.inl hx)
        · rcases List.mem_cons.mp hd2 with rfl | hd2s
          · rw [hi'] at hd2i
            injection hd2i with he
            exact Or.inl (Or.inr he.symm)
          · exact Or.inr ⟨d2, hd2s, hd2i⟩

/-- C2: the new documents of a pass are exactly the fetched records whose
id is not yet known and which are valid, in fetch order; after the
notification loop the known set is the old set united with the new ids. -/
theorem C2_nuevos_y_conocidos (hoy : Hoy) (K : List String) (docs : List Doc)
    (hid : ∀ d ∈ docs, d.id.isSome)
    (hp : ∀ d ∈ docs, vigenteOk d = true → d.publicado.isSome)
    (htu : ∀ d ∈ docs, d.titulo.isSome ∧ d.url.isSome) :
    ∃ nuevos, computeNuevos hoy K docs = Except.ok nuevos ∧
      nuevos = docs.filter
        (fun d => !(decide (d.id.getD "" ∈ K)) && es_validoB hoy d) ∧
      ∃ msgs K2, notifyLoop K [] nuevos = (msgs, K2, none) ∧
        (∀ x, x ∈ K2 ↔ x ∈ K ∨ ∃ d ∈ nuevos, d.id = some x) := by
  refine ⟨_, computeNuevos_eq hoy K docs hid hp, rfl, ?_⟩
  apply notifyLoop_ok
  intro d hd
  have hdocs : d ∈ docs := (List.mem_filter.mp hd).1
  have hcond := (List.mem_filter.mp hd).2
  have hval : es_validoB hoy d = true := by
    simp only [Bool.and_eq_true] at hcond
    exact hcond.2
  have hv : vigenteOk d = true := by
    have := hval
    simp only [es_validoB, Bool.and_eq_true] at this
    exact this.1
  exact ⟨(htu d hdocs).1, hp d hdocs hv, (htu d hdocs).2, hid d hdocs⟩

/-- Witness for C2: one known id, one new valid record, one repealed one. -/
theorem C2_nuevos_y_conocidos_witness :
    ∃ nuevos, computeNuevos ⟨2025, 5⟩ ["7"]
        [⟨some "7", some "A", some "01-05-2025", some "Vigente", some "u"⟩,
         ⟨some "8", some "B", some "02-05-2025", some "Vigente", some "v"⟩,
         ⟨some "9", some "C", some "03-05-2025", some "Derogado", some "w"⟩] =
        Except.ok nuevos ∧
      nuevos = List.filter
        (fun d => !(decide (d.id.getD "" ∈ ["7"])) && es_validoB ⟨2025, 5⟩ d)
        [⟨some "7", some "A", some "01-05-2025", some "Vigente", some "u"⟩,
         ⟨some "8", some "B", some "02-05-2025", some "Vigente", some "v"⟩,
         ⟨some "9", some "C", some "03-05-2025", some "Derogado", some "w"⟩] ∧
      ∃ msgs K2, notifyLoop ["7"] [] nuevos = (msgs, K2, none) ∧
        (∀ x, x ∈ K2 ↔ x ∈ ["7"] ∨ ∃ d ∈ nuevos, d.id = some x) :=
  C2_nuevos_y_conocidos ⟨2025, 5⟩ ["7"]
    [⟨some "7", some "A", some "01-05-2025", some "Vigente", some "u"⟩,
     ⟨some "8", some "B", some "02-05-2025", some "Vigente", some "v"⟩,
     ⟨some "9", some "C", some "03-05-2025", some "Derogado", some "w"⟩]
    (by decide) (by decide) (by decide)

theorem mainPass_reduce (hoy : Hoy) (w : World)
    (fetched : Except String (List String))
    (parse : String → Except String RawDict)
    (estado : List Doc) (K : List String)
    (h1 : cargar_estado w.file = Except.ok estado)
    (h2 : knownIds hoy estado = Except.ok K) :
    mainPass hoy w fetched parse =
      (match mainTry hoy w fetched parse K with
       | (w2, msgs, conocidos2, none) =>
         Except.ok ⟨w2,
           ("Monitor iniciado. Docs válidos conocidos: " ++
             toString K.length) :: msgs, conocidos2⟩
       | (w2, msgs, conocidos2, some e) =>
         Except.ok ⟨w2,
           ("Monitor iniciado. Docs válidos conocidos: " ++
             toString K.length) :: msgs ++ ["⚠️ Error general: " ++ e],
           conocidos2⟩) := by
  unfold mainPass
  rw [h1]
  simp only []
  rw [h2]

theorem mainTry_reduce (hoy : Hoy) (w : World)
    (fetched : Except String (List String))
    (parse : String → Except String RawDict)
    (K : List String) (docs nuevos : List Doc)
    (msgs K2 : List String) (actuales : List Doc)
    (h3 : obtener_documentos fetched parse = Except.ok docs)
    (h4 : computeNuevos hoy K docs = Except.ok nuevos)
    (h5 : notifyLoop K [] nuevos = (msgs, K2, none))
    (h6 : filtrar_validos hoy docs = Except.ok actuales) :
    mainTry hoy w fetched parse K =
      if nuevos.isEmpty then
        (w, msgs ++ ["Sin novedades en esta pasada"], K2, none)
      else
        ({ file := some (FileContent.docs actuales)
           writes := w.writes ++ [actuales] }, msgs, K2, none) := by
  unfold mainTry
  rw [h3]
  simp only []
  rw [h4]
  simp only []
  rw [h5]
  simp only []
  by_cases hnil : nuevos.isEmpty
  · simp [hnil]
  · have hnil' : nuevos.isEmpty = false := by
      simpa using hnil
    rw [hnil']
    unfold guardar_estado
    rw [h6]

/-- C4: in one pass the state file is overwritten (with the fetched list
filtered to the currently-valid records) exactly when at least one new
valid document was found; when none is found the world is left untouched
and the "Sin novedades" notification is emitted. -/
theorem C4_persistencia_condicional (hoy : Hoy) (w : World)
    (fetched : Except String (List String))
    (parse : String → Except String RawDict)
    (estado : List Doc) (K : List String) (docs nuevos : List Doc)
    (msgs K2 : List String) (actuales : List Doc)
    (h1 : cargar_estado w.file = Except.ok estado)
    (h2 : knownIds hoy estado = Except.ok K)
    (h3 : obtener_documentos fetched parse = Except.ok docs)
    (h4 : computeNuevos hoy K docs = Except.ok nuevos)
    (h5 : notifyLoop K [] nuevos = (msgs, K2, none))
    (h6 : filtrar_validos hoy docs = Except.ok actuales) :
    ∃ out, mainPass hoy w fetched parse = Except.ok out ∧
      (nuevos = [] → out.world = w ∧
        "Sin novedades en esta pasada" ∈ out.msgs) ∧
      (nuevos ≠ [] → out.world.file = some (FileContent.docs actuales) ∧
        out.world.writes = w.writes ++ [actuales]) := by
  rw [mainPass_reduce hoy w fetched parse estado K h1 h2,
    mainTry_reduce hoy w fetched parse K docs nuevos msgs K2 actuales h3 h4 h5 h6]
  by_cases hnil : nuevos = []
  · subst hnil
    refine ⟨⟨w,
      ("Monitor iniciado. Docs válidos conocidos: " ++ toString K.length) ::
        (msgs ++ ["Sin novedades en esta pasada"]), K2⟩, rfl, ?_, ?_⟩
    · intro _
      exact ⟨rfl, by simp⟩
    · intro hne
      exact absurd rfl hne
  · have hne : nuevos.isEmpty = false := by
      simpa using hnil
    rw [hne]
    refine ⟨⟨⟨some (FileContent.docs actuales), w.writes ++ [actuales]⟩,
      ("Monitor iniciado. Docs válidos conocidos: " ++ toString K.length) ::
        msgs, K2⟩, ?_, ?_, ?_⟩
    · simp
    · intro heq
      exact absurd heq hnil
    · intro _
      exact ⟨rfl, rfl⟩

/-- Witness for C4: an empty state file and a fetch carrying one new valid
document; the pass writes the filtered fetched list. -/
theorem C4_persistencia_condicional_witness :
    ∃ out, mainPass ⟨2025, 5⟩ ⟨none, []⟩
        (Except.ok ["catalogoArr[0] = {x};"])
        (fun _ => Except.ok
          ⟨some "7", some "Tit", some "02-05-2025", some "Vigente", some "/d.pdf"⟩) =
      Except.ok out ∧
      ([⟨some "7", some "Tit", some "02-05-2025", some "Vigente",
          some "https://www.claro.com.ec/d.pdf"⟩] ≠ ([] : List Doc) →
        out.world.file = some (FileContent.docs
          [⟨some "7", some "Tit", some "02-05-2025", some "Vigente",
            some "https://www.claro.com.ec/d.pdf"⟩]) ∧
        out.world.writes = ([] : List (List Doc)) ++
          [[⟨some "7", some "Tit", some "02-05-2025", some "Vigente",
            some "https://www.claro.com.ec/d.pdf"⟩]]) := by
  obtain ⟨out, hrun, _, hwrite⟩ := C4_persistencia_condicional ⟨2025, 5⟩
    ⟨none, []⟩ (Except.ok ["catalogoArr[0] = {x};"])
    (fun _ => Except.ok
      ⟨some "7", some "Tit", some "02-05-2025", some "Vigente", some "/d.pdf"⟩)
    [] []
    [⟨some "7", some "Tit", some "02-05-2025", some "Vigente",
      some "https://www.claro.com.ec/d.pdf"⟩]
    [⟨some "7", some "Tit", some "02-05-2025", some "Vigente",
      some "https://www.claro.com.ec/d.pdf"⟩]
    ["Nuevo documento: Tit (02-05-2025)\nhttps://www.claro.com.ec/d.pdf"]
    ["7"]
    [⟨some "7", some "Tit", some "02-05-2025", some "Vigente",
      some "https://www.claro.com.ec/d.pdf"⟩]
    rfl rfl rfl rfl rfl rfl
  exact ⟨out, hrun, hwrite⟩

/-- Counterexample to C5: `cargar_estado` runs at line 113, BEFORE the
`try` of lines 116-128, so a state-file decode error at startup escapes
`main` uncaught (modelled as `Except.error`, a process crash) instead of
being converted into a notification. -/
theorem C5_contraejemplo_decode_no_capturado :
    mainPass ⟨2025, 5⟩ ⟨some FileContent.malformed, []⟩ (Except.ok [])
      (fun _ => Except.error "ValueError") =
      Except.error "JSONDecodeError: Expecting value" := rfl

/-- C5 amended: once the startup load and known-id computation succeed,
`mainPass` never crashes — every exception of the pass body (fetch,
extraction, parse, diff) is caught once at the orchestrator boundary —
and a failing fetch/extraction turns into exactly one general-error
notification; but a state-file decode error at startup is outside the
handler and escapes. -/
theorem C5_limite_orquestador (hoy : Hoy) (w : World)
    (fetched : Except String (List String))
    (parse : String → Except String RawDict)
    (estado : List Doc) (K : List String)
    (h1 : cargar_estado w.file = Except.ok estado)
    (h2 : knownIds hoy estado = Except.ok K) :
    (∃ out, mainPass hoy w fetched parse = Except.ok out) ∧
    (∀ e, obtener_documentos fetched parse = Except.error e →
      mainPass hoy w fetched parse = Except.ok
        ⟨w, ["Monitor iniciado. Docs válidos conocidos: " ++ toString K.length,
             "⚠️ Error general: " ++ e], K⟩) := by
  have hred := mainPass_reduce hoy w fetched parse estado K h1 h2
  constructor
  · rw [hred]
    rcases hmt : mainTry hoy w fetched parse K with ⟨w2, msgs, K2, err⟩
    cases err with
    | none => exact ⟨_, rfl⟩
    | some e => exact ⟨_, rfl⟩
  · intro e he
    rw [hred]
    have htry : mainTry hoy w fetched parse K = (w, [], K, some e) := by
      unfold mainTry
      rw [he]
    rw [htry]
    rfl

/-- Witness for C5 (amended): a failing fetch is converted into a single
general-error notification and the pass returns normally. -/
theorem C5_limite_orquestador_witness :
    mainPass ⟨2025, 5⟩ ⟨none, []⟩ (Except.error "ConnectionError: timeout")
        (fun _ => Except.error "ValueError") =
      Except.ok ⟨⟨none, []⟩,
        ["Monitor iniciado. Docs válidos conocidos: 0",
         "⚠️ Error general: ConnectionError: timeout"], []⟩ := by
  obtain ⟨_, herr⟩ := C5_limite_orquestador ⟨2025, 5⟩ ⟨none, []⟩
    (Except.error "ConnectionError: timeout")
    (fun _ => Except.error "ValueError") [] [] rfl rfl
  exact herr "ConnectionError: timeout" rfl
